import Mathlib

/-!
Shallow embedding of src/scoring/score.py (Alloy model scoring script).

The script has two scoring functions and a CLI entry point:
* compute_alloy_diff_score: validates that two input files and the
  alloy-diff JAR exist, runs the diff tool as a subprocess with a
  300-second timeout, and returns score 1 exactly when the combined
  stdout+stderr contains the sentence MARKER; timeouts and execution
  exceptions are downgraded to score 0.
* check_alloy_syntax: returns score 0 when the target file is missing,
  raises when the Alloy tools JAR is missing, otherwise runs the Alloy
  executor as a subprocess and maps exit code 0 to score 1; on every
  subprocess outcome it removes the working directories tmp and output
  (shutil.rmtree, which may itself raise).
* main: argument-count check, runs the syntax check on the generated
  file then the equivalence scorer, prints both scores, and maps raised
  errors to an Error line on stderr with exit status 1.

External behaviour (which files exist, what the subprocess prints and
returns, whether a directory removal fails) is modelled as an explicit
environment; the functions are deterministic in the environment.
-/

namespace ScorePy

/-- The dict literal returned by both scoring functions:
a score and a max_score field. -/
structure ScoreDict where
  score : Nat
  max_score : Nat
deriving DecidableEq

/-- Outcome of a subprocess.run call: it either completes (captured
stdout, captured stderr, return code), raises subprocess.TimeoutExpired,
or raises some other exception. -/
inductive RunOutcome where
  | completed (out err : String) (returncode : Int)
  | timeoutExpired
  | exc (msg : String)
deriving DecidableEq

/-- A raised Python exception, as observed by callers: either a
FileNotFoundError carrying its message, or any other exception. -/
inductive Exc where
  | fileNotFound (msg : String)
  | generic (msg : String)
deriving DecidableEq

deriving instance DecidableEq for Except

/-- The message string carried by an exception (what str(e) yields). -/
def Exc.msg : Exc → String
  | .fileNotFound m => m
  | .generic m => m

/-- Abstract path string of JAR_PATH = Path(dunder-file).parent /
"alloy-diff.jar"; the script only tests its existence and interpolates
it into an error message. -/
def JAR_PATH : String := "alloy-diff.jar"

/-- Abstract path string of ALLOY_TOOLS_JAR = Path(dunder-file).parent /
"org.alloytools.alloy.dist.jar". -/
def ALLOY_TOOLS_JAR : String := "org.alloytools.alloy.dist.jar"

/-- The exact equivalence marker searched for in the diff tool output. -/
def MARKER : String := "The two modules are equivalent."

/-- Environment of one compute_alloy_diff_score call: which file paths
exist, whether the diff JAR exists, and how the subprocess run (if
reached) would end. -/
structure DiffEnv where
  fs : String → Bool
  jarExists : Bool
  run : RunOutcome

/-- Observable effect of one compute_alloy_diff_score call: the value
returned or the exception raised, and whether a subprocess was spawned. -/
structure DiffCall where
  result : Except Exc ScoreDict
  spawned : Bool

/-- Embedding of compute_alloy_diff_score(original_file, generated_file).
The input-file checks come first (original, then generated), then the
JAR check; then subprocess.run inside try: a completed run scores 1
exactly when "stdout + stderr" contains MARKER as a substring, and the
TimeoutExpired and generic except branches both return score 0. -/
def compute_alloy_diff_score (env : DiffEnv) (original_file generated_file : String) :
    DiffCall :=
  if env.fs original_file = false then
    { result := .error (.fileNotFound ("Original file not found: " ++ original_file)),
      spawned := false }
  else if env.fs generated_file = false then
    { result := .error (.fileNotFound ("Generated file not found: " ++ generated_file)),
      spawned := false }
  else if env.jarExists = false then
    { result := .error (.fileNotFound ("Alloy Diff JAR not found at: " ++ JAR_PATH)),
      spawned := false }
  else
    match env.run with
    | .completed out err _rc =>
        if MARKER.data <:+: (out ++ err).data then
          { result := .ok { score := 1, max_score := 1 }, spawned := true }
        else
          { result := .ok { score := 0, max_score := 1 }, spawned := true }
    | .timeoutExpired =>
        { result := .ok { score := 0, max_score := 1 }, spawned := true }
    | .exc _ =>
        { result := .ok { score := 0, max_score := 1 }, spawned := true }

/-- Existence of the two working directories (tmp, output) in the
current working directory. -/
structure Dirs where
  tmp : Bool
  outp : Bool
deriving DecidableEq

/-- Environment of one check_alloy_syntax call: which file paths exist,
whether the Alloy tools JAR exists, how the subprocess run would end,
which working directories the tool leaves behind, and whether the n-th
shutil.rmtree call of this invocation raises (some msg) or succeeds
(none). -/
structure SynEnv where
  fs : String → Bool
  toolsJarExists : Bool
  run : RunOutcome
  created : Dirs
  rmFail : Nat → Option String

/-- Directory state after the subprocess has run: the tool can create
tmp and output but removes neither. -/
def afterRun (d created : Dirs) : Dirs :=
  { tmp := d.tmp || created.tmp, outp := d.outp || created.outp }

/-- One guarded removal, mirroring: if Path("tmp").exists():
shutil.rmtree(Path("tmp")). Consumes one rmFail index when rmtree is
called; on failure the directory is left in place and the exception
message is reported. -/
def rmTmp (rmFail : Nat → Option String) (n : Nat) (d : Dirs) :
    Option String × Dirs × Nat :=
  if d.tmp then
    match rmFail n with
    | some m => (some m, d, n + 1)
    | none => (none, { d with tmp := false }, n + 1)
  else (none, d, n)

/-- One guarded removal, mirroring: if Path("output").exists():
shutil.rmtree(Path("output")). -/
def rmOutp (rmFail : Nat → Option String) (n : Nat) (d : Dirs) :
    Option String × Dirs × Nat :=
  if d.outp then
    match rmFail n with
    | some m => (some m, d, n + 1)
    | none => (none, { d with outp := false }, n + 1)
  else (none, d, n)

/-- The four-line cleanup block that appears three times in
check_alloy_syntax: remove tmp if it exists, then remove output if it
exists; if the first rmtree raises, the second is never reached. -/
def cleanup (rmFail : Nat → Option String) (n : Nat) (d : Dirs) :
    Option String × Dirs × Nat :=
  match rmTmp rmFail n d with
  | (some m, d1, n1) => (some m, d1, n1)
  | (none, d1, n1) => rmOutp rmFail n1 d1

/-- Observable effect of one check_alloy_syntax call: the value
returned or the exception raised, the final directory state, and
whether a subprocess was spawned. -/
structure SynCall where
  result : Except Exc ScoreDict
  dirs : Dirs
  spawned : Bool

/-- Embedding of check_alloy_syntax(file_path), called with the working
directories in state d0. A missing target file returns score 0 at once;
a missing tools JAR raises FileNotFoundError; otherwise subprocess.run
executes inside try. On a completed run the try-block cleanup runs and
the score is 1 iff returncode = 0; if that cleanup raises, the generic
except handler catches it, runs the cleanup again and returns score 0,
and if the handler cleanup raises in turn, that exception propagates.
On TimeoutExpired or another exception from subprocess.run, the
corresponding handler runs the cleanup and returns score 0, and an
exception raised by that cleanup propagates. -/
def check_alloy_syntax (env : SynEnv) (file_path : String) (d0 : Dirs) : SynCall :=
  if env.fs file_path = false then
    { result := .ok { score := 0, max_score := 1 }, dirs := d0, spawned := false }
  else if env.toolsJarExists = false then
    { result := .error (.fileNotFound ("Alloy tools JAR not found at: " ++ ALLOY_TOOLS_JAR)),
      dirs := d0, spawned := false }
  else
    match env.run with
    | .completed _ _ rc =>
        match cleanup env.rmFail 0 (afterRun d0 env.created) with
        | (none, d2, _) =>
            { result := .ok { score := if rc = 0 then 1 else 0, max_score := 1 },
              dirs := d2, spawned := true }
        | (some _, d2, n2) =>
            match cleanup env.rmFail n2 d2 with
            | (none, d3, _) =>
                { result := .ok { score := 0, max_score := 1 }, dirs := d3, spawned := true }
            | (some m3, d3, _) =>
                { result := .error (.generic m3), dirs := d3, spawned := true }
    | .timeoutExpired =>
        match cleanup env.rmFail 0 (afterRun d0 env.created) with
        | (none, d2, _) =>
            { result := .ok { score := 0, max_score := 1 }, dirs := d2, spawned := true }
        | (some m2, d2, _) =>
            { result := .error (.generic m2), dirs := d2, spawned := true }
    | .exc _ =>
        match cleanup env.rmFail 0 (afterRun d0 env.created) with
        | (none, d2, _) =>
            { result := .ok { score := 0, max_score := 1 }, dirs := d2, spawned := true }
        | (some m2, d2, _) =>
            { result := .error (.generic m2), dirs := d2, spawned := true }

/-- Environment of one main() invocation: shared filesystem, both JAR
existence flags, the subprocess outcome and cleanup behaviour of the
syntax check, and the subprocess outcome of the diff run. -/
structure MainEnv where
  fs : String → Bool
  toolsJarExists : Bool
  diffJarExists : Bool
  synRun : RunOutcome
  created : Dirs
  rmFail : Nat → Option String
  diffRun : RunOutcome

/-- The SynEnv a main invocation passes to check_alloy_syntax. -/
def MainEnv.synEnv (env : MainEnv) : SynEnv :=
  { fs := env.fs, toolsJarExists := env.toolsJarExists, run := env.synRun,
    created := env.created, rmFail := env.rmFail }

/-- The DiffEnv a main invocation passes to compute_alloy_diff_score. -/
def MainEnv.diffEnv (env : MainEnv) : DiffEnv :=
  { fs := env.fs, jarExists := env.diffJarExists, run := env.diffRun }

/-- Observable effect of main(): the value returned to sys.exit, the
lines printed to stdout and stderr, and the final directory state. -/
structure MainRes where
  exitCode : Nat
  outLines : List String
  errLines : List String
  dirs : Dirs
deriving DecidableEq

/-- Embedding of main(), with argv the full sys.argv (program name
included). A length other than 3 prints the usage line to stderr and
returns 1. Otherwise check_alloy_syntax runs on the generated file,
then compute_alloy_diff_score on original vs generated; both result
lines are printed and 0 returned. Either FileNotFoundError or any other
exception raised by the two calls is caught and printed as an Error
line on stderr with return value 1. -/
def main (env : MainEnv) (argv : List String) (d0 : Dirs) : MainRes :=
  match argv with
  | [_, original_file, generated_file] =>
      let synCall := check_alloy_syntax env.synEnv generated_file d0
      match synCall.result with
      | .error e =>
          { exitCode := 1, outLines := [], errLines := ["Error: " ++ e.msg],
            dirs := synCall.dirs }
      | .ok synRes =>
          let diffCall := compute_alloy_diff_score env.diffEnv original_file generated_file
          match diffCall.result with
          | .error e =>
              { exitCode := 1, outLines := [], errLines := ["Error: " ++ e.msg],
                dirs := synCall.dirs }
          | .ok eqRes =>
              { exitCode := 0,
                outLines :=
                  ["Syntax Valid: " ++ toString synRes.score ++ "/" ++
                     toString synRes.max_score,
                   "Equivalence Score: " ++ toString eqRes.score ++ "/" ++
                     toString eqRes.max_score],
                errLines := [], dirs := synCall.dirs }
  | _ =>
      { exitCode := 1, outLines := [],
        errLines := ["Usage: python score.py <original_file> <generated_file>"],
        dirs := d0 }

/-! Concrete environments used by counterexamples and witnesses. -/

/-- Both inputs and the JAR exist; the diff run prints the marker. -/
def envDiffEq : DiffEnv :=
  ⟨fun _ => true, true, .completed "The two modules are equivalent." "" 0⟩

/-- Both inputs and the JAR exist; the diff run hits the timeout. -/
def envDiffTO : DiffEnv := ⟨fun _ => true, true, .timeoutExpired⟩

/-- Only orig.als exists; the generated file is missing; the JAR exists. -/
def envDiffGenMissing : DiffEnv := ⟨fun s => s == "orig.als", true, .timeoutExpired⟩

/-- Only orig.als exists and the diff JAR is missing: both the generated
file and the JAR are absent. -/
def envDiffJarGenMissing : DiffEnv := ⟨fun s => s == "orig.als", false, .timeoutExpired⟩

/-- No input file exists; the diff JAR exists. -/
def envDiffOrigMissing : DiffEnv := ⟨fun _ => false, true, .timeoutExpired⟩

/-- Both inputs exist but the diff JAR is missing. -/
def envDiffJarMissing : DiffEnv := ⟨fun _ => true, false, .timeoutExpired⟩

/-- Syntax check: everything exists, the run exits 0 leaving a tmp
directory behind, and the first rmtree call raises while every later
one succeeds. -/
def envStxRmOnce : SynEnv :=
  ⟨fun _ => true, true, .completed "" "" 0, ⟨true, false⟩,
   fun n => if n = 0 then some "boom" else none⟩

/-- Syntax check: everything exists, the run exits with code 5 and
creates no directories. -/
def envStxRc5 : SynEnv :=
  ⟨fun _ => true, true, .completed "" "" 5, ⟨false, false⟩, fun _ => none⟩

/-- Syntax check: everything exists, the run exits 0 creating both
directories, and every rmtree call succeeds. -/
def envStxClean : SynEnv :=
  ⟨fun _ => true, true, .completed "" "" 0, ⟨true, true⟩, fun _ => none⟩

/-- Syntax check: neither the target file nor the tools JAR exists. -/
def envStxBothMissing : SynEnv :=
  ⟨fun _ => false, false, .timeoutExpired, ⟨false, false⟩, fun _ => none⟩

/-- Syntax check: the target file exists but the tools JAR is missing. -/
def envStxJarMissing : SynEnv :=
  ⟨fun _ => true, false, .timeoutExpired, ⟨false, false⟩, fun _ => none⟩

/-- Syntax check: the run exits 0 leaving a tmp directory behind, and
every rmtree call raises (a persistent removal failure). -/
def envStxRmAlways : SynEnv :=
  ⟨fun _ => true, true, .completed "" "" 0, ⟨true, false⟩,
   fun _ => some "Permission denied"⟩

/-- Same persistent removal failure, named separately for the cleanup
claim about the success path. -/
def envStxRmAlways2 : SynEnv :=
  ⟨fun _ => true, true, .completed "" "" 0, ⟨true, false⟩,
   fun _ => some "Permission denied"⟩

/-- main: everything exists, the syntax run exits 0 and the diff run
prints the marker. -/
def envMainOk : MainEnv :=
  ⟨fun _ => true, true, true, .completed "" "" 0, ⟨false, false⟩, fun _ => none,
   .completed "The two modules are equivalent." "" 0⟩

/-- main: the tools JAR is missing, so the syntax check raises. -/
def envMainSynErr : MainEnv :=
  ⟨fun _ => true, false, true, .timeoutExpired, ⟨false, false⟩, fun _ => none,
   .timeoutExpired⟩

/-- main: the syntax check succeeds on gen.als but orig.als is missing,
so the equivalence scorer raises. -/
def envMainDiffErr : MainEnv :=
  ⟨fun s => s == "gen.als", true, true, .completed "" "" 0, ⟨false, false⟩,
   fun _ => none, .timeoutExpired⟩

/-! Helper lemmas about the cleanup block and the shapes of results. -/

/-- A successful guarded removal of tmp leaves tmp absent and does not
touch output. -/
theorem rmTmp_none (rmFail : Nat → Option String) (n : Nat) (d d1 : Dirs) (n1 : Nat)
    (h : rmTmp rmFail n d = (none, d1, n1)) : d1.tmp = false ∧ d1.outp = d.outp := by
  unfold rmTmp at h
  split at h
  · split at h
    · simp at h
    · simp only [Prod.mk.injEq] at h
      obtain ⟨-, h2, -⟩ := h
      subst h2
      exact ⟨rfl, rfl⟩
  · simp only [Prod.mk.injEq] at h
    obtain ⟨-, h2, -⟩ := h
    subst h2
    simp_all

/-- A successful guarded removal of output leaves output absent and
does not touch tmp. -/
theorem rmOutp_none (rmFail : Nat → Option String) (n : Nat) (d d1 : Dirs) (n1 : Nat)
    (h : rmOutp rmFail n d = (none, d1, n1)) : d1.outp = false ∧ d1.tmp = d.tmp := by
  unfold rmOutp at h
  split at h
  · split at h
    · simp at h
    · simp only [Prod.mk.injEq] at h
      obtain ⟨-, h2, -⟩ := h
      subst h2
      exact ⟨rfl, rfl⟩
  · simp only [Prod.mk.injEq] at h
    obtain ⟨-, h2, -⟩ := h
    subst h2
    simp_all

/-- When the cleanup block runs to completion, both directories are
gone. -/
theorem cleanup_none_clears (rmFail : Nat → Option String) (n : Nat) (d d2 : Dirs)
    (n2 : Nat) (h : cleanup rmFail n d = (none, d2, n2)) :
    d2.tmp = false ∧ d2.outp = false := by
  unfold cleanup at h
  split at h
  · simp at h
  · rename_i d1 n1 heq
    obtain ⟨ht, _⟩ := rmTmp_none rmFail n d d1 n1 heq
    obtain ⟨ho, ht2⟩ := rmOutp_none rmFail n1 d1 d2 n2 h
    exact ⟨ht2 ▸ ht, ho⟩

/-- Every dict compute_alloy_diff_score returns has max_score 1 and a
binary score. -/
theorem diff_ok_inv (env : DiffEnv) (o g : String) (r : ScoreDict)
    (hres : ( compute_alloy_diff_score env o g).result = Except.ok r) :
    r.max_score = 1 ∧ (r.score = 0 ∨ r.score = 1) := by
  unfold compute_alloy_diff_score at hres
  split at hres
  · simp at hres
  · split at hres
    · simp at hres
    · split at hres
      · simp at hres
      · split at hres
        · split at hres
          · simp at hres
            cases hres
            simp
          · simp at hres
            cases hres
            simp
        · simp at hres
          cases hres
          simp
        · simp at hres
          cases hres
          simp

/-- Every dict check_alloy_syntax returns has max_score 1 and a binary
score. -/
theorem check_ok_inv (env : SynEnv) (f : String) (d0 : Dirs) (r : ScoreDict)
    (hres : ( check_alloy_syntax env f d0).result = Except.ok r) :
    r.max_score = 1 ∧ (r.score = 0 ∨ r.score = 1) := by
  unfold check_alloy_syntax at hres
  split at hres
  · simp at hres
    cases hres
    simp
  · split at hres
    · simp at hres
    · split at hres
      · split at hres
        · simp at hres
          cases hres
          refine ⟨rfl, ?_⟩
          split <;> simp
        · split at hres
          · simp at hres
            cases hres
            simp
          · simp at hres
      · split at hres
        · simp at hres
          cases hres
          simp
        · simp at hres
      · split at hres
        · simp at hres
          cases hres
          simp
        · simp at hres

/-- Characterisation of the score returned by check_alloy_syntax when
the target file and the tools JAR exist: the score is 1 exactly when
the subprocess completed with return code 0 and the try-block cleanup
ran to completion. -/
theorem check_ok_iff (env : SynEnv) (f : String) (d0 : Dirs) (r : ScoreDict)
    (hf : env.fs f = true) (hjar : env.toolsJarExists = true)
    (hres : ( check_alloy_syntax env f d0).result = Except.ok r) :
    r.score = 1 ↔ ∃ out err, env.run = RunOutcome.completed out err 0 ∧
      (cleanup env.rmFail 0 (afterRun d0 env.created)).1 = none := by
  unfold check_alloy_syntax at hres
  split at hres
  · simp_all
  · split at hres
    · simp_all
    · split at hres
      · rename_i out err rc hrun
        split at hres
        · rename_i d2 n2 heq
          simp at hres
          subst hres
          constructor
          · intro hsc
            by_cases hrc : rc = 0
            · exact ⟨out, err, hrc ▸ hrun, by rw [heq]⟩
            · simp [hrc] at hsc
          · rintro ⟨out1, err1, hrun1, -⟩
            rw [hrun] at hrun1
            cases hrun1
            simp
        · rename_i m2 d2 n2 heq
          split at hres
          · simp at hres
            subst hres
            constructor
            · intro hsc
              simp at hsc
            · rintro ⟨out1, err1, hrun1, hcl⟩
              rw [hrun] at hrun1
              cases hrun1
              rw [heq] at hcl
              simp at hcl
          · simp at hres
      · rename_i hrun
        split at hres
        · simp at hres
          subst hres
          constructor
          · intro hsc
            simp at hsc
          · rintro ⟨out1, err1, hrun1, -⟩
            rw [hrun] at hrun1
            cases hrun1
        · simp at hres
      · rename_i m hrun
        split at hres
        · simp at hres
          subst hres
          constructor
          · intro hsc
            simp at hsc
          · rintro ⟨out1, err1, hrun1, -⟩
            rw [hrun] at hrun1
            cases hrun1
        · simp at hres

/-- C1: when both input files and the diff JAR exist and the subprocess
run completes without timeout or exception, compute_alloy_diff_score
returns normally, with score 1 exactly when the concatenation of the
captured stdout and stderr contains the exact equivalence marker, and
score 0 for every other combined output. -/
theorem diff_marker_iff (env : DiffEnv) (o g out err : String) (rc : Int)
    (hfo : env.fs o = true) (hfg : env.fs g = true) (hjar : env.jarExists = true)
    (hrun : env.run = RunOutcome.completed out err rc) :
    ( compute_alloy_diff_score env o g).result =
      Except.ok ⟨if MARKER.data <:+: (out ++ err).data then 1 else 0, 1⟩ ∧
    (( compute_alloy_diff_score env o g).result = Except.ok ⟨1, 1⟩ ↔
      MARKER.data <:+: (out ++ err).data) := by
  unfold compute_alloy_diff_score
  simp only [hfo, hfg, hjar, hrun]
  by_cases hm : MARKER.data <:+: out.data ++ err.data <;> simp [hm]

/-- Witness for diff_marker_iff: a run that prints the marker. -/
theorem diff_marker_iff_w :
    ( compute_alloy_diff_score envDiffEq "orig.als" "gen.als").result =
      Except.ok
        ⟨if MARKER.data <:+: ("The two modules are equivalent." ++ "").data then 1
          else 0, 1⟩ ∧
    (( compute_alloy_diff_score envDiffEq "orig.als" "gen.als").result =
        Except.ok ⟨1, 1⟩ ↔
      MARKER.data <:+: ("The two modules are equivalent." ++ "").data) :=
  diff_marker_iff envDiffEq "orig.als" "gen.als" "The two modules are equivalent."
    "" 0 rfl rfl rfl rfl

/-- C7: with both inputs and the JAR present, a diff run that exceeds
the timeout yields score 0 with max_score 1, returned normally rather
than raised. -/
theorem diff_timeout_score_zero (env : DiffEnv) (o g : String)
    (hfo : env.fs o = true) (hfg : env.fs g = true) (hjar : env.jarExists = true)
    (hrun : env.run = RunOutcome.timeoutExpired) :
    ( compute_alloy_diff_score env o g).result = Except.ok ⟨0, 1⟩ ∧
    ( compute_alloy_diff_score env o g).spawned = true := by
  unfold compute_alloy_diff_score
  simp [hfo, hfg, hjar, hrun]

/-- Witness for diff_timeout_score_zero. -/
theorem diff_timeout_score_zero_w :
    ( compute_alloy_diff_score envDiffTO "orig.als" "gen.als").result =
      Except.ok ⟨0, 1⟩ ∧
    ( compute_alloy_diff_score envDiffTO "orig.als" "gen.als").spawned = true :=
  diff_timeout_score_zero envDiffTO "orig.als" "gen.als" rfl rfl rfl rfl

/-- C4: if the original or the generated file is missing,
compute_alloy_diff_score raises a FileNotFoundError whose message names
the missing path, and no subprocess is spawned. -/
theorem diff_missing_input_error (env : DiffEnv) (o g : String)
    (h : env.fs o = false ∨ env.fs g = false) :
    ( compute_alloy_diff_score env o g).spawned = false ∧
    (env.fs o = false →
      ( compute_alloy_diff_score env o g).result =
        Except.error (Exc.fileNotFound ("Original file not found: " ++ o))) ∧
    (env.fs o = true →
      ( compute_alloy_diff_score env o g).result =
        Except.error (Exc.fileNotFound ("Generated file not found: " ++ g))) := by
  unfold compute_alloy_diff_score
  rcases h with h | h
  · simp [h]
  · by_cases ho : env.fs o = false
    · simp [ho]
    · simp only [Bool.not_eq_false] at ho
      simp [ho, h]

/-- Witness for diff_missing_input_error: the generated file is
missing. -/
theorem diff_missing_input_error_w :
    ( compute_alloy_diff_score envDiffGenMissing "orig.als" "gen.als").spawned =
      false ∧
    ( compute_alloy_diff_score envDiffGenMissing "orig.als" "gen.als").result =
      Except.error (Exc.fileNotFound ("Generated file not found: " ++ "gen.als")) :=
  ⟨(diff_missing_input_error envDiffGenMissing "orig.als" "gen.als" (Or.inr rfl)).1,
   (diff_missing_input_error envDiffGenMissing "orig.als" "gen.als"
      (Or.inr rfl)).2.2 rfl⟩

/-- C3 counterexample: with the generated file and the diff JAR both
missing (original present), the error raised names the generated file,
not the JAR, so the missing-JAR error is not raised on every call where
the JAR is absent. -/
theorem diff_jar_priority_cex :
    envDiffJarGenMissing.jarExists = false ∧
    ( compute_alloy_diff_score envDiffJarGenMissing "orig.als" "gen.als").result =
      Except.error (Exc.fileNotFound "Generated file not found: gen.als") ∧
    ( compute_alloy_diff_score envDiffJarGenMissing "orig.als" "gen.als").result ≠
      Except.error (Exc.fileNotFound ("Alloy Diff JAR not found at: " ++ JAR_PATH)) := by
  refine ⟨rfl, ?_, ?_⟩ <;> decide

/-- C3 amended: the existence checks run in the order original file,
generated file, diff JAR; the missing-JAR error is raised exactly on
the calls where both input files exist and the JAR is absent, before
any subprocess is spawned. -/
theorem diff_check_order_amended (env : DiffEnv) (o g : String) :
    (env.fs o = false →
      ( compute_alloy_diff_score env o g).result =
        Except.error (Exc.fileNotFound ("Original file not found: " ++ o))) ∧
    (env.fs o = true → env.fs g = false →
      ( compute_alloy_diff_score env o g).result =
        Except.error (Exc.fileNotFound ("Generated file not found: " ++ g))) ∧
    (env.fs o = true → env.fs g = true → env.jarExists = false →
      ( compute_alloy_diff_score env o g).result =
        Except.error (Exc.fileNotFound ("Alloy Diff JAR not found at: " ++ JAR_PATH)) ∧
      ( compute_alloy_diff_score env o g).spawned = false) := by
  refine ⟨fun h1 => ?_, fun h1 h2 => ?_, fun h1 h2 h3 => ?_⟩ <;>
    unfold compute_alloy_diff_score <;> simp [*]

/-- Witness for diff_check_order_amended: all three error scenarios at
concrete inputs. -/
theorem diff_check_order_amended_w :
    ( compute_alloy_diff_score envDiffOrigMissing "orig.als" "gen.als").result =
      Except.error (Exc.fileNotFound ("Original file not found: " ++ "orig.als")) ∧
    ( compute_alloy_diff_score envDiffGenMissing "orig.als" "gen.als").result =
      Except.error (Exc.fileNotFound ("Generated file not found: " ++ "gen.als")) ∧
    ( compute_alloy_diff_score envDiffJarMissing "orig.als" "gen.als").result =
      Except.error (Exc.fileNotFound ("Alloy Diff JAR not found at: " ++ JAR_PATH)) :=
  ⟨(diff_check_order_amended envDiffOrigMissing "orig.als" "gen.als").1 rfl,
   (diff_check_order_amended envDiffGenMissing "orig.als" "gen.als").2.1 rfl rfl,
   ((diff_check_order_amended envDiffJarMissing "orig.als" "gen.als").2.2
      rfl rfl rfl).1⟩

/-- C9: every dict returned by either scoring function, on every return
path, has max_score 1 and a score of 0 or 1. -/
theorem score_result_invariant (denv : DiffEnv) (senv : SynEnv) (o g f : String)
    (d0 : Dirs) (r : ScoreDict)
    (h : ( compute_alloy_diff_score denv o g).result = Except.ok r ∨
         ( check_alloy_syntax senv f d0).result = Except.ok r) :
    r.max_score = 1 ∧ (r.score = 0 ∨ r.score = 1) := by
  rcases h with h | h
  · exact diff_ok_inv denv o g r h
  · exact check_ok_inv senv f d0 r h

/-- Witness for score_result_invariant at a timed-out diff run. -/
theorem score_result_invariant_w :
    (⟨0, 1⟩ : ScoreDict).max_score = 1 ∧
    ((⟨0, 1⟩ : ScoreDict).score = 0 ∨ (⟨0, 1⟩ : ScoreDict).score = 1) :=
  score_result_invariant envDiffTO envStxClean "orig.als" "gen.als" "gen.als"
    ⟨false, false⟩ ⟨0, 1⟩ (Or.inl rfl)

/-- C2 counterexample: the subprocess exits with code 0, but a failed
tmp removal makes check_alloy_syntax return score 0, so score 1 is not
equivalent to exit code 0. -/
theorem stx_exit_code_cex :
    envStxRmOnce.run = RunOutcome.completed "" "" 0 ∧
    ( check_alloy_syntax envStxRmOnce "gen.als" ⟨false, false⟩).result =
      Except.ok ⟨0, 1⟩ :=
  ⟨rfl, rfl⟩

/-- C2 amended: with the target file and the tools JAR present, a
returned score of 1 implies the run completed with exit code 0; every
non-zero exit code, timeout, or execution exception yields score 0; a
run with exit code 0 whose cleanup completes yields score 1, but a
cleanup failure after an exit-code-0 run yields score 0, so exit code 0
alone does not guarantee score 1. -/
theorem stx_score_exit_code_amended (env : SynEnv) (f : String) (d0 : Dirs)
    (r : ScoreDict) (hf : env.fs f = true) (hjar : env.toolsJarExists = true)
    (hres : ( check_alloy_syntax env f d0).result = Except.ok r) :
    (r.score = 1 → ∃ out err, env.run = RunOutcome.completed out err 0) ∧
    (∀ out err rc, env.run = RunOutcome.completed out err rc → rc ≠ 0 →
      r.score = 0) ∧
    (env.run = RunOutcome.timeoutExpired → r.score = 0) ∧
    (∀ m, env.run = RunOutcome.exc m → r.score = 0) ∧
    (∀ out err, env.run = RunOutcome.completed out err 0 →
      (cleanup env.rmFail 0 (afterRun d0 env.created)).1 = none → r.score = 1) := by
  have hiff := check_ok_iff env f d0 r hf hjar hres
  have hinv := check_ok_inv env f d0 r hres
  refine ⟨?_, ?_, ?_, ?_, ?_⟩
  · intro h1
    obtain ⟨out, err, hrun, -⟩ := hiff.mp h1
    exact ⟨out, err, hrun⟩
  · intro out err rc hrun hrc
    rcases hinv.2 with h0 | h1
    · exact h0
    · obtain ⟨out1, err1, hrun1, -⟩ := hiff.mp h1
      rw [hrun] at hrun1
      cases hrun1
      exact absurd rfl hrc
  · intro hrun
    rcases hinv.2 with h0 | h1
    · exact h0
    · obtain ⟨out1, err1, hrun1, -⟩ := hiff.mp h1
      rw [hrun] at hrun1
      cases hrun1
  · intro m hrun
    rcases hinv.2 with h0 | h1
    · exact h0
    · obtain ⟨out1, err1, hrun1, -⟩ := hiff.mp h1
      rw [hrun] at hrun1
      cases hrun1
  · intro out err hrun hcl
    exact hiff.mpr ⟨out, err, hrun, hcl⟩

/-- Witness for stx_score_exit_code_amended: a run exiting with code 5
scores 0. -/
theorem stx_score_exit_code_amended_w :
    ( check_alloy_syntax envStxRc5 "gen.als" ⟨false, false⟩).result =
      Except.ok ⟨0, 1⟩ ∧
    (⟨0, 1⟩ : ScoreDict).score = 0 := by
  refine ⟨rfl, ?_⟩
  exact (stx_score_exit_code_amended envStxRc5 "gen.als" ⟨false, false⟩ ⟨0, 1⟩
    rfl rfl rfl).2.1 "" "" 5 rfl (by decide)

/-- C5 counterexample: with both the target file and the tools JAR
missing, check_alloy_syntax returns score 0 instead of raising the
missing-JAR error, so the JAR error is not raised on every call where
the JAR is absent. -/
theorem stx_jar_error_cex :
    envStxBothMissing.toolsJarExists = false ∧
    ( check_alloy_syntax envStxBothMissing "gen.als" ⟨false, false⟩).result =
      Except.ok ⟨0, 1⟩ :=
  ⟨rfl, rfl⟩

/-- C5 amended: the missing-JAR FileNotFoundError is raised exactly on
the calls where the target file exists and the tools JAR is absent;
when the target file is missing, score 0 is returned before the JAR
check is consulted, with no subprocess spawned in either case. -/
theorem stx_jar_error_amended (env : SynEnv) (f : String) (d0 : Dirs) :
    (env.fs f = true → env.toolsJarExists = false →
      ( check_alloy_syntax env f d0).result =
        Except.error
          (Exc.fileNotFound ("Alloy tools JAR not found at: " ++ ALLOY_TOOLS_JAR)) ∧
      ( check_alloy_syntax env f d0).spawned = false) ∧
    (env.fs f = false →
      ( check_alloy_syntax env f d0).result = Except.ok ⟨0, 1⟩ ∧
      ( check_alloy_syntax env f d0).spawned = false) := by
  refine ⟨fun h1 h2 => ?_, fun h1 => ?_⟩ <;> unfold check_alloy_syntax <;> simp [*]

/-- Witness for stx_jar_error_amended: both scenarios at concrete
inputs. -/
theorem stx_jar_error_amended_w :
    ( check_alloy_syntax envStxJarMissing "gen.als" ⟨false, false⟩).result =
      Except.error
        (Exc.fileNotFound ("Alloy tools JAR not found at: " ++ ALLOY_TOOLS_JAR)) ∧
    ( check_alloy_syntax envStxBothMissing "other.als" ⟨false, false⟩).result =
      Except.ok ⟨0, 1⟩ :=
  ⟨((stx_jar_error_amended envStxJarMissing "gen.als" ⟨false, false⟩).1 rfl rfl).1,
   ((stx_jar_error_amended envStxBothMissing "other.als" ⟨false, false⟩).2 rfl).1⟩

/-- C6 counterexample: the subprocess runs (exit code 0, creating tmp)
but every rmtree raises, so the call propagates the removal error and
the tmp directory still exists afterwards. -/
theorem stx_cleanup_dirs_cex :
    ( check_alloy_syntax envStxRmAlways2 "gen.als" ⟨false, false⟩).spawned = true ∧
    ( check_alloy_syntax envStxRmAlways2 "gen.als" ⟨false, false⟩).dirs.tmp = true :=
  ⟨rfl, rfl⟩

/-- C6 amended: after every check_alloy_syntax call that reaches the
subprocess invocation and returns a result (rather than propagating a
directory-removal exception) — on the normal, timeout, and
execution-exception paths alike — neither tmp nor output exists. -/
theorem stx_cleanup_dirs_amended (env : SynEnv) (f : String) (d0 : Dirs)
    (r : ScoreDict)
    (hsp : ( check_alloy_syntax env f d0).spawned = true)
    (hres : ( check_alloy_syntax env f d0).result = Except.ok r) :
    ( check_alloy_syntax env f d0).dirs.tmp = false ∧
    ( check_alloy_syntax env f d0).dirs.outp = false := by
  revert hsp hres
  unfold check_alloy_syntax
  split
  · intro hsp
    simp at hsp
  · split
    · intro hsp
      simp at hsp
    · split
      · split
        · rename_i d2 n2 heq
          intro _ _
          exact cleanup_none_clears _ _ _ _ _ heq
        · split
          · rename_i d3 n3 heq2
            intro _ _
            exact cleanup_none_clears _ _ _ _ _ heq2
          · intro _ hres
            simp at hres
      · split
        · rename_i d2 n2 heq
          intro _ _
          exact cleanup_none_clears _ _ _ _ _ heq
        · intro _ hres
          simp at hres
      · split
        · rename_i d2 n2 heq
          intro _ _
          exact cleanup_none_clears _ _ _ _ _ heq
        · intro _ hres
          simp at hres

/-- Witness for stx_cleanup_dirs_amended: a clean run that created both
directories, starting from a stale tmp. -/
theorem stx_cleanup_dirs_amended_w :
    ( check_alloy_syntax envStxClean "gen.als" ⟨true, false⟩).dirs.tmp = false ∧
    ( check_alloy_syntax envStxClean "gen.als" ⟨true, false⟩).dirs.outp = false :=
  stx_cleanup_dirs_amended envStxClean "gen.als" ⟨true, false⟩ ⟨1, 1⟩ rfl rfl

/-- C10 counterexample: exit code 0 and a failing tmp removal, but the
handler removal fails as well, so the call raises the removal error
instead of returning score 0. -/
theorem stx_cleanup_failure_cex :
    envStxRmAlways.run = RunOutcome.completed "" "" 0 ∧
    ( check_alloy_syntax envStxRmAlways "gen.als" ⟨false, false⟩).result =
      Except.error (Exc.generic "Permission denied") :=
  ⟨rfl, rfl⟩

/-- C10 amended: if the subprocess exits with code 0 but the try-block
cleanup raises, check_alloy_syntax returns score 0 provided the except
handler cleanup completes without raising; if that cleanup raises as
well, the exception propagates to the caller instead. -/
theorem stx_cleanup_failure_amended (env : SynEnv) (f : String) (d0 : Dirs)
    (out err m : String) (d2 d3 : Dirs) (n2 n3 : Nat)
    (hf : env.fs f = true) (hjar : env.toolsJarExists = true)
    (hrun : env.run = RunOutcome.completed out err 0)
    (hcl1 : cleanup env.rmFail 0 (afterRun d0 env.created) = (some m, d2, n2))
    (hcl2 : cleanup env.rmFail n2 d2 = (none, d3, n3)) :
    ( check_alloy_syntax env f d0).result = Except.ok ⟨0, 1⟩ := by
  unfold check_alloy_syntax
  simp [hf, hjar, hrun, hcl1, hcl2]

/-- Witness for stx_cleanup_failure_amended: one failing removal whose
handler retry succeeds. -/
theorem stx_cleanup_failure_amended_w :
    ( check_alloy_syntax envStxRmOnce "gen.als" ⟨false, false⟩).result =
      Except.ok ⟨0, 1⟩ :=
  stx_cleanup_failure_amended envStxRmOnce "gen.als" ⟨false, false⟩ "" "" "boom"
    ⟨true, false⟩ ⟨false, false⟩ 1 2 rfl rfl rfl rfl rfl

/-- C8: the CLI entry point prints the usage line to stderr and returns
1 on any argument count other than two files; when both scoring calls
return, it prints the Syntax Valid line then the Equivalence Score line
and returns 0; and when either call raises a missing-file or
missing-artifact error, it prints an Error line to stderr and
returns 1. -/
theorem main_cli_contract (env : MainEnv) (argv : List String) (p o g : String)
    (d0 : Dirs) :
    (argv.length ≠ 3 →
      main env argv d0 =
        ⟨1, [], ["Usage: python score.py <original_file> <generated_file>"], d0⟩) ∧
    (∀ sr er : ScoreDict,
      ( check_alloy_syntax env.synEnv g d0).result = Except.ok sr →
      ( compute_alloy_diff_score env.diffEnv o g).result = Except.ok er →
      main env [p, o, g] d0 =
        ⟨0,
         ["Syntax Valid: " ++ toString sr.score ++ "/" ++ toString sr.max_score,
          "Equivalence Score: " ++ toString er.score ++ "/" ++
            toString er.max_score],
         [], ( check_alloy_syntax env.synEnv g d0).dirs⟩) ∧
    (∀ e : Exc,
      ( check_alloy_syntax env.synEnv g d0).result = Except.error e →
      main env [p, o, g] d0 =
        ⟨1, [], ["Error: " ++ e.msg], ( check_alloy_syntax env.synEnv g d0).dirs⟩) ∧
    (∀ sr : ScoreDict, ∀ e : Exc,
      ( check_alloy_syntax env.synEnv g d0).result = Except.ok sr →
      ( compute_alloy_diff_score env.diffEnv o g).result = Except.error e →
      main env [p, o, g] d0 =
        ⟨1, [], ["Error: " ++ e.msg],
         ( check_alloy_syntax env.synEnv g d0).dirs⟩) := by
  refine ⟨?_, ?_, ?_, ?_⟩
  · intro hlen
    rcases argv with _ | ⟨a, _ | ⟨b, _ | ⟨c, _ | ⟨dd, t⟩⟩⟩⟩
    · rfl
    · rfl
    · rfl
    · simp at hlen
    · rfl
  · intro sr er hs he
    unfold main
    simp only [hs, he]
  · intro e hs
    unfold main
    simp only [hs]
  · intro sr e hs he
    unfold main
    simp only [hs, he]

/-- Witness for main_cli_contract: the four scenarios at concrete
inputs. -/
theorem main_cli_contract_w :
    main envMainOk ["score.py"] ⟨false, false⟩ =
      ⟨1, [], ["Usage: python score.py <original_file> <generated_file>"],
       ⟨false, false⟩⟩ ∧
    main envMainOk ["score.py", "orig.als", "gen.als"] ⟨false, false⟩ =
      ⟨0,
       ["Syntax Valid: " ++ toString (1 : Nat) ++ "/" ++ toString (1 : Nat),
        "Equivalence Score: " ++ toString (1 : Nat) ++ "/" ++ toString (1 : Nat)],
       [], ( check_alloy_syntax envMainOk.synEnv "gen.als" ⟨false, false⟩).dirs⟩ ∧
    main envMainSynErr ["score.py", "orig.als", "gen.als"] ⟨false, false⟩ =
      ⟨1, [],
       ["Error: " ++
          (Exc.fileNotFound
            ("Alloy tools JAR not found at: " ++ ALLOY_TOOLS_JAR)).msg],
       ( check_alloy_syntax envMainSynErr.synEnv "gen.als" ⟨false, false⟩).dirs⟩ ∧
    main envMainDiffErr ["score.py", "orig.als", "gen.als"] ⟨false, false⟩ =
      ⟨1, [],
       ["Error: " ++ (Exc.fileNotFound "Original file not found: orig.als").msg],
       ( check_alloy_syntax envMainDiffErr.synEnv "gen.als" ⟨false, false⟩).dirs⟩ :=
  ⟨(main_cli_contract envMainOk ["score.py"] "score.py" "orig.als" "gen.als"
      ⟨false, false⟩).1 (by decide),
   (main_cli_contract envMainOk ["score.py"] "score.py" "orig.als" "gen.als"
      ⟨false, false⟩).2.1 ⟨1, 1⟩ ⟨1, 1⟩ rfl (by decide),
   (main_cli_contract envMainSynErr ["score.py"] "score.py" "orig.als" "gen.als"
      ⟨false, false⟩).2.2.1
     (Exc.fileNotFound ("Alloy tools JAR not found at: " ++ ALLOY_TOOLS_JAR)) rfl,
   (main_cli_contract envMainDiffErr ["score.py"] "score.py" "orig.als" "gen.als"
      ⟨false, false⟩).2.2.2 ⟨1, 1⟩
     (Exc.fileNotFound "Original file not found: orig.als") rfl rfl⟩

end ScorePy
